import Mathlib

/-!
Shallow embedding of `src/server.js` (a chat-message relay with a REST API,
a socket push channel, and a storage adapter over MongoDB with an in-memory
fallback).

Modelling conventions:
  - Dates (`new Date()`) are modelled as `Nat` instants passed explicitly to
    each operation (`now`); the process clock is assumed non-decreasing where
    a claim needs it, stated as an explicit hypothesis.
  - A Mongo `ObjectId` is modelled as its 24-character hex string; the
    `new ObjectId(s)` constructor throwing on an invalid string is modelled
    by `Except`.
  - JS falsiness of the string-valued request fields (`!senderId` etc.) is
    modelled on `Option String`: `none` (absent) and `some ""` are falsy.
  - `io.emit` (broadcast to all connections) and `socket.emit` (reply to the
    originating connection) are recorded as event lists in the result of each
    handler, keeping JSON key names so payload shapes are checkable.
-/

/-- A chat message as stored by either backend (`server.js` lines 113-119:
`senderId`, `content`, `conversationId`, `timestamp`, `createdAt`, plus the
backend-assigned `_id` and the update-time `updatedAt`). -/
structure Message where
  _id : String
  senderId : String
  content : String
  conversationId : String
  timestamp : Nat
  createdAt : Nat
  updatedAt : Option Nat
deriving DecidableEq

/-- A JSON scalar occurring in the emitted object literals. -/
inductive JsonVal where
  | str : String → JsonVal
  | bool : Bool → JsonVal
deriving DecidableEq

/-- A JSON payload sent in a response body or an emitted event: either a
whole stored message, a list of messages, or an object literal given by its
key/value fields in source order. -/
inductive Payload where
  | message : Message → Payload
  | messages : List Message → Payload
  | fields : List (String × JsonVal) → Payload
deriving DecidableEq

/-- The active storage backend: `db` set (Mongo collection contents) or the
in-memory fallback array `messages` (`server.js` lines 26, 41). -/
inductive Backend where
  | durable : List Message → Backend
  | fallback : List Message → Backend
deriving DecidableEq

/-- The raw stored document list of the active backend. -/
def rawDocs : Backend → List Message
  | .durable docs => docs
  | .fallback msgs => msgs

/-- JS falsiness of an optional string field: absent or empty. -/
def isFalsy : Option String → Bool
  | none => true
  | some s => s == ""

/-- JS `x || d` for an optional string: the default replaces an absent or
empty value (`conversationId || 'general'`). -/
def jsOr (o : Option String) (d : String) : String :=
  match o with
  | none => d
  | some s => if s == "" then d else s

def isHexChar (c : Char) : Bool :=
  (('0' ≤ c && c ≤ '9') || ('a' ≤ c && c ≤ 'f') || ('A' ≤ c && c ≤ 'F'))

/-- Validity of a string as a Mongo `ObjectId`: 24 hex characters. The
`new ObjectId(s)` constructor in the driver throws on anything else. -/
def isValidObjectIdString (s : String) : Bool :=
  s.length == 24 && s.toList.all isHexChar

/-- Timestamp order on messages (the sort key of `sort({ timestamp: 1 })`). -/
def tsLE (a b : Message) : Prop := a.timestamp ≤ b.timestamp

instance : DecidableRel tsLE := fun a b => Nat.decLe a.timestamp b.timestamp

instance : IsTotal Message tsLE := ⟨fun a b => Nat.le_total a.timestamp b.timestamp⟩

instance : IsTrans Message tsLE := ⟨fun _ _ _ h h2 => Nat.le_trans h h2⟩

/-- `getMessages` (`server.js` lines 44-49): with `db` set, find all and sort
ascending by `timestamp`; otherwise return the fallback array as is. -/
def getMessagesM : Backend → List Message
  | .durable docs => docs.insertionSort tsLE
  | .fallback msgs => msgs

/-- `saveMessage` (`server.js` lines 51-60): both backends append the message
with its assigned id (`result.insertedId` on Mongo, `uuidv4()` on the
fallback) and return the stored message. `newId` stands for that assigned
identifier. -/
def saveMessageM (b : Backend) (msg : Message) (newId : String) : Backend × Message :=
  match b with
  | .durable docs =>
      let stored := { msg with _id := newId }
      (.durable (docs ++ [stored]), stored)
  | .fallback msgs =>
      let stored := { msg with _id := newId }
      (.fallback (msgs ++ [stored]), stored)

/-- Mongo `updateOne({_id}, {$set: {content, updatedAt: now}})`: update the
first matching document; `modifiedCount` counts it only if the `$set`
actually changed it. Returns (new collection, modifiedCount). -/
def mongoUpdateOne : List Message → String → String → Nat → List Message × Nat
  | [], _, _, _ => ([], 0)
  | m :: ms, id, c, now =>
      if m._id = id then
        let m2 := { m with content := c, updatedAt := some now }
        (m2 :: ms, if m2 = m then 0 else 1)
      else
        let r := mongoUpdateOne ms id c now
        (m :: r.1, r.2)

/-- Mongo `deleteOne({_id})`: remove the first matching document; returns
(new collection, deletedCount). -/
def mongoDeleteOne : List Message → String → List Message × Nat
  | [], _ => ([], 0)
  | m :: ms, id =>
      if m._id = id then (ms, 1)
      else
        let r := mongoDeleteOne ms id
        (m :: r.1, r.2)

/-- Fallback branch of `updateMessage` (`server.js` lines 69-77):
`findIndex` on `_id`, then mutate `content` and `updatedAt` in place of the
first match; returns (new array, whether a match was found). -/
def fallbackUpdate : List Message → String → String → Nat → List Message × Bool
  | [], _, _, _ => ([], false)
  | m :: ms, id, c, now =>
      if m._id = id then
        ({ m with content := c, updatedAt := some now } :: ms, true)
      else
        let r := fallbackUpdate ms id c now
        (m :: r.1, r.2)

/-- Fallback branch of `deleteMessage` (`server.js` lines 84-91):
`findIndex` on `_id`, then `splice` out the first match; returns
(new array, whether a match was found). -/
def fallbackDelete : List Message → String → List Message × Bool
  | [], _ => ([], false)
  | m :: ms, id =>
      if m._id = id then (ms, true)
      else
        let r := fallbackDelete ms id
        (m :: r.1, r.2)

/-- `updateMessage` (`server.js` lines 62-78). On the durable backend,
`new ObjectId(messageId)` throws on an invalid id string (`.error`); success
reports `modifiedCount > 0`. On the fallback it reports whether `findIndex`
found a match. -/
def updateMessageM (b : Backend) (id c : String) (now : Nat) :
    Except Unit (Backend × Bool) :=
  match b with
  | .durable docs =>
      if isValidObjectIdString id then
        let r := mongoUpdateOne docs id c now
        .ok (.durable r.1, decide (0 < r.2))
      else
        .error ()
  | .fallback msgs =>
      let r := fallbackUpdate msgs id c now
      .ok (.fallback r.1, r.2)

/-- `deleteMessage` (`server.js` lines 80-92), with the same `ObjectId`
behaviour on the durable backend; success reports `deletedCount > 0`. -/
def deleteMessageM (b : Backend) (id : String) : Except Unit (Backend × Bool) :=
  match b with
  | .durable docs =>
      if isValidObjectIdString id then
        let r := mongoDeleteOne docs id
        .ok (.durable r.1, decide (0 < r.2))
      else
        .error ()
  | .fallback msgs =>
      let r := fallbackDelete msgs id
      .ok (.fallback r.1, r.2)

/-- A parsed JSON request body for the create paths
(`{senderId, content, conversationId?}`); absent fields are `none`. -/
structure PostBody where
  senderId : Option String
  content : Option String
  conversationId : Option String
deriving DecidableEq

/-- The message literal built by the create handlers (`server.js` lines
113-119 and 195-201): both `new Date()` calls evaluate at the same instant
`now`; `_id` is assigned later by the storage layer. -/
def mkMessage (body : PostBody) (now : Nat) : Message :=
  { _id := ""
    senderId := body.senderId.getD ""
    content := body.content.getD ""
    conversationId := jsOr body.conversationId "general"
    timestamp := now
    createdAt := now
    updatedAt := none }

/-- Outcome of one REST handler invocation: HTTP status, JSON response body,
the `io.emit` broadcasts it produced (event name and payload, in order), and
the resulting storage state. -/
structure RestResult where
  status : Nat
  body : Payload
  events : List (String × Payload)
  state : Backend
deriving DecidableEq

/-- Outcome of one socket event handler invocation: the `socket.emit` replies
to the originating connection, the `io.emit` broadcasts to all connections,
and the resulting storage state. -/
structure ChanResult where
  toSender : List (String × Payload)
  toAll : List (String × Payload)
  state : Backend
deriving DecidableEq

/-- `POST /api/messages` handler (`server.js` lines 105-131). `newId` is the
id the storage backend would assign. -/
def postMessages (b : Backend) (body : PostBody) (now : Nat) (newId : String) :
    RestResult :=
  if isFalsy body.senderId || isFalsy body.content then
    ⟨400, .fields [("error", .str "senderId and content are required")], [], b⟩
  else
    let r := saveMessageM b (mkMessage body now) newId
    ⟨201, .message r.2, [("newMessage", .message r.2)], r.1⟩

/-- `PUT /api/messages/:id` handler (`server.js` lines 133-155). A storage
throw is caught and answered with the generic 500 body. -/
def putMessage (b : Backend) (id : String) (content? : Option String)
    (now : Nat) : RestResult :=
  if isFalsy content? then
    ⟨400, .fields [("error", .str "content is required")], [], b⟩
  else
    let c := content?.getD ""
    match updateMessageM b id c now with
    | .error _ =>
        ⟨500, .fields [("error", .str "Failed to update message")], [], b⟩
    | .ok (b2, true) =>
        ⟨200,
         .fields [("success", .bool true),
                  ("message", .str "Message updated successfully")],
         [("messageUpdated", .fields [("messageId", .str id),
                                      ("content", .str c)])],
         b2⟩
    | .ok (b2, false) =>
        ⟨404, .fields [("error", .str "Message not found")], [], b2⟩

/-- `DELETE /api/messages/:id` handler (`server.js` lines 157-174). -/
def deleteMessageRest (b : Backend) (id : String) : RestResult :=
  match deleteMessageM b id with
  | .error _ =>
      ⟨500, .fields [("error", .str "Failed to delete message")], [], b⟩
  | .ok (b2, true) =>
      ⟨200,
       .fields [("success", .bool true),
                ("message", .str "Message deleted successfully")],
       [("messageDeleted", .fields [("messageId", .str id)])],
       b2⟩
  | .ok (b2, false) =>
      ⟨404, .fields [("error", .str "Message not found")], [], b2⟩

/-- Socket `sendMessage` handler (`server.js` lines 186-211): validate, then
persist and broadcast `newMessage` to all connections. -/
def sendMessageEvt (b : Backend) (data : PostBody) (now : Nat) (newId : String) :
    ChanResult :=
  if isFalsy data.senderId || isFalsy data.content then
    ⟨[("error", .fields [("message", .str "senderId and content are required")])],
     [], b⟩
  else
    let r := saveMessageM b (mkMessage data now) newId
    ⟨[], [("newMessage", .message r.2)], r.1⟩

/-- Socket `deleteMessage` handler (`server.js` lines 237-257): validate
`messageId`, then delete; errors go to the originating connection only. -/
def deleteMessageEvt (b : Backend) (messageId? : Option String) : ChanResult :=
  if isFalsy messageId? then
    ⟨[("error", .fields [("message", .str "messageId is required")])], [], b⟩
  else
    let id := messageId?.getD ""
    match deleteMessageM b id with
    | .error _ =>
        ⟨[("error", .fields [("message", .str "Failed to delete message")])], [], b⟩
    | .ok (b2, true) =>
        ⟨[], [("messageDeleted", .fields [("messageId", .str id)])], b2⟩
    | .ok (b2, false) =>
        ⟨[("error", .fields [("message", .str "Message not found")])], [], b2⟩

/-- One create request in an interleaved trace: either a `POST /api/messages`
or a socket `sendMessage`, with the clock instant at which its handler ran
and the id the backend assigned. -/
inductive CreateStep where
  | rest : PostBody → Nat → String → CreateStep
  | chan : PostBody → Nat → String → CreateStep
deriving DecidableEq

/-- The clock instant of a create step. -/
def CreateStep.now : CreateStep → Nat
  | .rest _ n _ => n
  | .chan _ n _ => n

/-- Run a sequence of interleaved REST and channel creates against a
backend state. -/
def runCreates : Backend → List CreateStep → Backend
  | b, [] => b
  | b, .rest body now newId :: ops =>
      runCreates (postMessages b body now newId).state ops
  | b, .chan body now newId :: ops =>
      runCreates (sendMessageEvt b body now newId).state ops

/-! ## Helper lemmas -/

theorem setFields_eq_self (m : Message) (c : String) (now : Nat) :
    ({ m with content := c, updatedAt := some now } : Message) = m ↔
      (m.content = c ∧ m.updatedAt = some now) := by
  cases m
  simp [Message.mk.injEq]
  tauto

theorem fallbackUpdate_found_iff (l : List Message) (id c : String) (now : Nat) :
    (fallbackUpdate l id c now).2 = true ↔ ∃ m ∈ l, m._id = id := by
  induction l with
  | nil => simp [fallbackUpdate]
  | cons m ms ih =>
      by_cases h : m._id = id
      · constructor
        · intro _
          exact ⟨m, List.mem_cons_self m ms, h⟩
        · intro _
          simp [fallbackUpdate, h]
      · simp only [fallbackUpdate, if_neg h]
        rw [show ((m :: (fallbackUpdate ms id c now).1,
              (fallbackUpdate ms id c now).2) : List Message × Bool).2 =
            (fallbackUpdate ms id c now).2 from rfl, ih]
        simp [h]

theorem mongoUpdateOne_count_pos_iff (l : List Message) (id c : String) (now : Nat) :
    0 < (mongoUpdateOne l id c now).2 ↔
      ∃ m, l.find? (fun x => x._id == id) = some m ∧
        (m.content ≠ c ∨ m.updatedAt ≠ some now) := by
  induction l with
  | nil => simp [mongoUpdateOne]
  | cons m ms ih =>
      by_cases h : m._id = id
      · by_cases hcu : m.content = c ∧ m.updatedAt = some now
        · have he : ({ m with content := c, updatedAt := some now } : Message) = m :=
            (setFields_eq_self m c now).mpr hcu
          obtain ⟨h1, h2⟩ := hcu
          simp [mongoUpdateOne, h, he, h1, h2]
          rw [← h]
          exact he
        · have he : ({ m with content := c, updatedAt := some now } : Message) ≠ m := by
            rw [Ne, setFields_eq_self]
            exact hcu
          rw [not_and_or] at hcu
          simp only [mongoUpdateOne, if_pos h, if_neg he]
          constructor
          · intro _
            refine ⟨m, ?_, hcu⟩
            simp [List.find?_cons_of_pos, h]
          · intro _
            exact Nat.zero_lt_one
      · simp only [mongoUpdateOne, if_neg h]
        have hfind : List.find? (fun x : Message => x._id == id) (m :: ms) =
            List.find? (fun x : Message => x._id == id) ms := by
          simp [List.find?_cons_of_neg, h]
        rw [hfind]
        exact ih

theorem fallbackUpdate_not_found (l : List Message) (id c : String) (now : Nat)
    (h : ∀ m ∈ l, m._id ≠ id) :
    fallbackUpdate l id c now = (l, false) := by
  induction l with
  | nil => rfl
  | cons m ms ih =>
      have hm : m._id ≠ id := h m (List.mem_cons_self m ms)
      have hms := ih (fun x hx => h x (List.mem_cons_of_mem m hx))
      simp [fallbackUpdate, hm, hms]

theorem fallbackDelete_not_found (l : List Message) (id : String)
    (h : ∀ m ∈ l, m._id ≠ id) :
    fallbackDelete l id = (l, false) := by
  induction l with
  | nil => rfl
  | cons m ms ih =>
      have hm : m._id ≠ id := h m (List.mem_cons_self m ms)
      have hms := ih (fun x hx => h x (List.mem_cons_of_mem m hx))
      simp [fallbackDelete, hm, hms]

theorem mongoUpdateOne_not_found (l : List Message) (id c : String) (now : Nat)
    (h : ∀ m ∈ l, m._id ≠ id) :
    mongoUpdateOne l id c now = (l, 0) := by
  induction l with
  | nil => rfl
  | cons m ms ih =>
      have hm : m._id ≠ id := h m (List.mem_cons_self m ms)
      have hms := ih (fun x hx => h x (List.mem_cons_of_mem m hx))
      simp [mongoUpdateOne, hm, hms]

theorem mongoDeleteOne_not_found (l : List Message) (id : String)
    (h : ∀ m ∈ l, m._id ≠ id) :
    mongoDeleteOne l id = (l, 0) := by
  induction l with
  | nil => rfl
  | cons m ms ih =>
      have hm : m._id ≠ id := h m (List.mem_cons_self m ms)
      have hms := ih (fun x hx => h x (List.mem_cons_of_mem m hx))
      simp [mongoDeleteOne, hm, hms]

theorem post_state_fallback (msgs : List Message) (body : PostBody) (now : Nat)
    (newId : String) :
    (postMessages (.fallback msgs) body now newId).state = .fallback msgs ∨
    (postMessages (.fallback msgs) body now newId).state =
      .fallback (msgs ++ [{ mkMessage body now with _id := newId }]) := by
  by_cases h : (isFalsy body.senderId || isFalsy body.content) = true
  · left
    simp [postMessages, h]
  · right
    simp [postMessages, h, saveMessageM]

theorem chan_state_fallback (msgs : List Message) (body : PostBody) (now : Nat)
    (newId : String) :
    (sendMessageEvt (.fallback msgs) body now newId).state = .fallback msgs ∨
    (sendMessageEvt (.fallback msgs) body now newId).state =
      .fallback (msgs ++ [{ mkMessage body now with _id := newId }]) := by
  by_cases h : (isFalsy body.senderId || isFalsy body.content) = true
  · left
    simp [sendMessageEvt, h]
  · right
    simp [sendMessageEvt, h, saveMessageM]

theorem post_state_durable (docs : List Message) (body : PostBody) (now : Nat)
    (newId : String) :
    ∃ docs2, (postMessages (.durable docs) body now newId).state = .durable docs2 := by
  by_cases h : (isFalsy body.senderId || isFalsy body.content) = true
  · exact ⟨docs, by simp [postMessages, h]⟩
  · exact ⟨docs ++ [{ mkMessage body now with _id := newId }],
      by simp [postMessages, h, saveMessageM]⟩

theorem chan_state_durable (docs : List Message) (body : PostBody) (now : Nat)
    (newId : String) :
    ∃ docs2, (sendMessageEvt (.durable docs) body now newId).state = .durable docs2 := by
  by_cases h : (isFalsy body.senderId || isFalsy body.content) = true
  · exact ⟨docs, by simp [sendMessageEvt, h]⟩
  · exact ⟨docs ++ [{ mkMessage body now with _id := newId }],
      by simp [sendMessageEvt, h, saveMessageM]⟩

theorem runCreates_durable (ops : List CreateStep) :
    ∀ docs : List Message,
      ∃ docs2, runCreates (.durable docs) ops = .durable docs2 := by
  induction ops with
  | nil =>
      intro docs
      exact ⟨docs, rfl⟩
  | cons op ops ih =>
      intro docs
      cases op with
      | rest body n newId =>
          obtain ⟨d2, hd2⟩ := post_state_durable docs body n newId
          rw [runCreates, hd2]
          exact ih d2
      | chan body n newId =>
          obtain ⟨d2, hd2⟩ := chan_state_durable docs body n newId
          rw [runCreates, hd2]
          exact ih d2

theorem runCreates_fallback_sorted (ops : List CreateStep) :
    ∀ msgs : List Message,
      List.Sorted tsLE msgs →
      (∀ m ∈ msgs, ∀ s ∈ ops, m.timestamp ≤ s.now) →
      List.Sorted (· ≤ ·) (ops.map CreateStep.now) →
      ∃ msgs2, runCreates (.fallback msgs) ops = .fallback msgs2 ∧
        List.Sorted tsLE msgs2 := by
  induction ops with
  | nil =>
      intro msgs hs _ _
      exact ⟨msgs, rfl, hs⟩
  | cons op ops ih =>
      intro msgs hs hb hm
      rw [List.map_cons, List.sorted_cons] at hm
      obtain ⟨hle, hm2⟩ := hm
      have hle2 : ∀ s ∈ ops, op.now ≤ s.now := by
        intro s hsm
        exact hle s.now (List.mem_map_of_mem CreateStep.now hsm)
      have hbtail : ∀ m ∈ msgs, ∀ s ∈ ops, m.timestamp ≤ s.now :=
        fun m hmem s hsm => hb m hmem s (List.mem_cons_of_mem op hsm)
      have happend : ∀ n newId body, n = op.now →
          List.Sorted tsLE (msgs ++ [{ mkMessage body n with _id := newId }]) := by
        intro n newId body hn
        refine List.pairwise_append.mpr ⟨hs, List.pairwise_singleton _ _, ?_⟩
        intro a ha b hbm
        rw [List.mem_singleton] at hbm
        subst hbm
        show a.timestamp ≤ n
        rw [hn]
        exact hb a ha op (List.mem_cons_self op ops)
      have hbound : ∀ n newId body, n = op.now →
          ∀ m ∈ msgs ++ [{ mkMessage body n with _id := newId }],
            ∀ s ∈ ops, m.timestamp ≤ s.now := by
        intro n newId body hn m hmem s hsm
        rcases List.mem_append.mp hmem with hmem | hmem
        · exact hbtail m hmem s hsm
        · rw [List.mem_singleton] at hmem
          subst hmem
          show n ≤ s.now
          rw [hn]
          exact hle2 s hsm
      cases op with
      | rest body n newId =>
          rcases post_state_fallback msgs body n newId with hst | hst
          · rw [runCreates, hst]
            exact ih msgs hs hbtail hm2
          · rw [runCreates, hst]
            exact ih _ (happend n newId body rfl) (hbound n newId body rfl) hm2
      | chan body n newId =>
          rcases chan_state_fallback msgs body n newId with hst | hst
          · rw [runCreates, hst]
            exact ih msgs hs hbtail hm2
          · rw [runCreates, hst]
            exact ih _ (happend n newId body rfl) (hbound n newId body rfl) hm2

theorem mongoUpdateOne_append_fresh (l : List Message) (m0 : Message)
    (id c : String) (now : Nat)
    (hf : ∀ m ∈ l, m._id ≠ id) (hm : m0._id = id) :
    mongoUpdateOne (l ++ [m0]) id c now =
      (l ++ [{ m0 with content := c, updatedAt := some now }],
       if ({ m0 with content := c, updatedAt := some now } : Message) = m0
         then 0 else 1) := by
  induction l with
  | nil => simp [mongoUpdateOne, hm]
  | cons m ms ih =>
      have hne : m._id ≠ id := hf m (List.mem_cons_self m ms)
      have hms := ih (fun x hx => hf x (List.mem_cons_of_mem m hx))
      simp [mongoUpdateOne, hne, hms]

theorem fallbackUpdate_append_fresh (l : List Message) (m0 : Message)
    (id c : String) (now : Nat)
    (hf : ∀ m ∈ l, m._id ≠ id) (hm : m0._id = id) :
    fallbackUpdate (l ++ [m0]) id c now =
      (l ++ [{ m0 with content := c, updatedAt := some now }], true) := by
  induction l with
  | nil => simp [fallbackUpdate, hm]
  | cons m ms ih =>
      have hne : m._id ≠ id := hf m (List.mem_cons_self m ms)
      have hms := ih (fun x hx => hf x (List.mem_cons_of_mem m hx))
      simp [fallbackUpdate, hne, hms]

/-! ## Claim theorems -/

/-- C4: a `POST /api/messages` whose body is missing `senderId` or missing
`content` (an absent field or an empty string, both falsy in JS) is answered
with status 400, leaves the stored message list unchanged, and emits no
`newMessage` broadcast. -/
theorem C4_post_validation_rejects (b : Backend) (body : PostBody) (now : Nat)
    (newId : String)
    (h : isFalsy body.senderId = true ∨ isFalsy body.content = true) :
    (postMessages b body now newId).status = 400 ∧
    (postMessages b body now newId).state = b ∧
    (postMessages b body now newId).events = [] := by
  have hb : (isFalsy body.senderId || isFalsy body.content) = true := by
    rcases h with h | h <;> simp [h]
  simp [postMessages, hb]

/-- Witness for C4 at a concrete input: a body with no `senderId`. -/
theorem C4_post_validation_rejects_witness :
    (isFalsy (none : Option String) = true ∨ isFalsy (some "hi") = true) ∧
    ((postMessages (.fallback []) ⟨none, some "hi", none⟩ 0 "i").status = 400 ∧
     (postMessages (.fallback []) ⟨none, some "hi", none⟩ 0 "i").state = .fallback [] ∧
     (postMessages (.fallback []) ⟨none, some "hi", none⟩ 0 "i").events = []) :=
  ⟨Or.inl (by decide),
   C4_post_validation_rejects (.fallback []) ⟨none, some "hi", none⟩ 0 "i"
     (Or.inl (by decide))⟩

/-- C8: an inbound channel `deleteMessage` whose payload lacks a message id
(absent or empty) makes the handler emit an `error` event to the originating
connection only, emit no `messageDeleted` broadcast, and leave the stored
list unchanged. -/
theorem C8_chan_delete_missing_id (b : Backend) (mid : Option String)
    (h : isFalsy mid = true) :
    deleteMessageEvt b mid =
      ⟨[("error", .fields [("message", .str "messageId is required")])], [], b⟩ := by
  simp [deleteMessageEvt, h]

/-- Witness for C8 at a concrete input: an empty payload on a non-empty
fallback store. -/
theorem C8_chan_delete_missing_id_witness :
    isFalsy (none : Option String) = true ∧
    deleteMessageEvt (.fallback [⟨"a", "u", "x", "general", 0, 0, none⟩]) none =
      ⟨[("error", .fields [("message", .str "messageId is required")])], [],
       .fallback [⟨"a", "u", "x", "general", 0, 0, none⟩]⟩ :=
  ⟨by decide,
   C8_chan_delete_missing_id (.fallback [⟨"a", "u", "x", "general", 0, 0, none⟩])
     none (by decide)⟩

/-- C9: with the durable backend active, a `PUT` or `DELETE` whose `:id` is
not a valid `ObjectId` string makes the `new ObjectId` constructor throw, so
the handler's catch answers 500 with the generic storage-error body (and the
state is untouched) — never 404. For `PUT` the body's `content` must be
present, else the 400 validation branch runs before the constructor. -/
theorem C9_invalid_objectid_500 (docs : List Message) (id c : String) (now : Nat)
    (hinv : isValidObjectIdString id = false) (hc : c ≠ "") :
    updateMessageM (.durable docs) id c now = .error () ∧
    deleteMessageM (.durable docs) id = .error () ∧
    putMessage (.durable docs) id (some c) now =
      ⟨500, .fields [("error", .str "Failed to update message")], [], .durable docs⟩ ∧
    deleteMessageRest (.durable docs) id =
      ⟨500, .fields [("error", .str "Failed to delete message")], [], .durable docs⟩ ∧
    (putMessage (.durable docs) id (some c) now).status ≠ 404 ∧
    (deleteMessageRest (.durable docs) id).status ≠ 404 := by
  have hu : updateMessageM (.durable docs) id c now = .error () := by
    simp [updateMessageM, hinv]
  have hd : deleteMessageM (.durable docs) id = .error () := by
    simp [deleteMessageM, hinv]
  have hp : putMessage (.durable docs) id (some c) now =
      ⟨500, .fields [("error", .str "Failed to update message")], [], .durable docs⟩ := by
    simp [putMessage, isFalsy, hc, hu]
  have hdr : deleteMessageRest (.durable docs) id =
      ⟨500, .fields [("error", .str "Failed to delete message")], [], .durable docs⟩ := by
    simp [deleteMessageRest, hd]
  refine ⟨hu, hd, hp, hdr, ?_, ?_⟩
  · rw [hp]
    simp
  · rw [hdr]
    simp

/-- Witness for C9 at a concrete input: id `"nope"` is not 24 hex chars. -/
theorem C9_invalid_objectid_500_witness :
    isValidObjectIdString "nope" = false ∧ "x" ≠ "" ∧
    (updateMessageM (.durable []) "nope" "x" 0 = .error () ∧
     deleteMessageM (.durable []) "nope" = .error () ∧
     putMessage (.durable []) "nope" (some "x") 0 =
       ⟨500, .fields [("error", .str "Failed to update message")], [], .durable []⟩ ∧
     deleteMessageRest (.durable []) "nope" =
       ⟨500, .fields [("error", .str "Failed to delete message")], [], .durable []⟩ ∧
     (putMessage (.durable []) "nope" (some "x") 0).status ≠ 404 ∧
     (deleteMessageRest (.durable []) "nope").status ≠ 404) :=
  ⟨by decide, by decide,
   C9_invalid_objectid_500 [] "nope" "x" 0 (by decide) (by decide)⟩

/-- C2: after any interleaved sequence of REST and channel creates run with
a non-decreasing clock, listing returns all stored messages (a permutation
of the raw store) in non-decreasing timestamp order, on both the durable
backend and the in-memory fallback. -/
theorem C2_list_sorted (ops : List CreateStep)
    (hmono : List.Sorted (· ≤ ·) (ops.map CreateStep.now)) :
    (List.Sorted tsLE (getMessagesM (runCreates (.fallback []) ops)) ∧
     (getMessagesM (runCreates (.fallback []) ops)).Perm
       (rawDocs (runCreates (.fallback []) ops))) ∧
    (List.Sorted tsLE (getMessagesM (runCreates (.durable []) ops)) ∧
     (getMessagesM (runCreates (.durable []) ops)).Perm
       (rawDocs (runCreates (.durable []) ops))) := by
  constructor
  · obtain ⟨msgs2, hrun, hsorted⟩ :=
      runCreates_fallback_sorted ops [] List.sorted_nil (by simp) hmono
    rw [hrun]
    exact ⟨hsorted, List.Perm.refl _⟩
  · obtain ⟨docs2, hrun⟩ := runCreates_durable ops []
    rw [hrun]
    exact ⟨List.sorted_insertionSort tsLE docs2, List.perm_insertionSort tsLE docs2⟩

/-- Witness for C2 at a concrete trace: a REST create at time 1 interleaved
with a channel create at time 2. -/
theorem C2_list_sorted_witness :
    List.Sorted (· ≤ ·)
      (([CreateStep.rest ⟨some "u1", some "a", none⟩ 1 "i1",
         CreateStep.chan ⟨some "u2", some "b", none⟩ 2 "i2"]).map CreateStep.now) ∧
    ((List.Sorted tsLE (getMessagesM (runCreates (.fallback [])
        [CreateStep.rest ⟨some "u1", some "a", none⟩ 1 "i1",
         CreateStep.chan ⟨some "u2", some "b", none⟩ 2 "i2"])) ∧
      (getMessagesM (runCreates (.fallback [])
        [CreateStep.rest ⟨some "u1", some "a", none⟩ 1 "i1",
         CreateStep.chan ⟨some "u2", some "b", none⟩ 2 "i2"])).Perm
        (rawDocs (runCreates (.fallback [])
        [CreateStep.rest ⟨some "u1", some "a", none⟩ 1 "i1",
         CreateStep.chan ⟨some "u2", some "b", none⟩ 2 "i2"]))) ∧
     (List.Sorted tsLE (getMessagesM (runCreates (.durable [])
        [CreateStep.rest ⟨some "u1", some "a", none⟩ 1 "i1",
         CreateStep.chan ⟨some "u2", some "b", none⟩ 2 "i2"])) ∧
      (getMessagesM (runCreates (.durable [])
        [CreateStep.rest ⟨some "u1", some "a", none⟩ 1 "i1",
         CreateStep.chan ⟨some "u2", some "b", none⟩ 2 "i2"])).Perm
        (rawDocs (runCreates (.durable [])
        [CreateStep.rest ⟨some "u1", some "a", none⟩ 1 "i1",
         CreateStep.chan ⟨some "u2", some "b", none⟩ 2 "i2"])))) :=
  ⟨by decide,
   C2_list_sorted
     [CreateStep.rest ⟨some "u1", some "a", none⟩ 1 "i1",
      CreateStep.chan ⟨some "u2", some "b", none⟩ 2 "i2"] (by decide)⟩

/-- C6: creating a message through the adapter and then updating its content
(fresh backend-assigned id, non-decreasing clock) makes a subsequent list
contain that message with the new content, `updatedAt` set to the update
instant, and `updatedAt` at or after `createdAt`; on both backends. The
fallback half holds for every assigned id (the fallback assigns uuid
strings); only the durable half needs the id to be a valid `ObjectId`,
since `new ObjectId` would otherwise throw on the way back in. -/
theorem C6_create_update_roundtrip (ld lf : List Message)
    (sender c1 c2 conv : String) (now1 now2 : Nat) (newId : String)
    (h12 : now1 ≤ now2)
    (hfd : ∀ m ∈ ld, m._id ≠ newId) (hff : ∀ m ∈ lf, m._id ≠ newId) :
    (isValidObjectIdString newId = true →
      ∃ b2, updateMessageM (saveMessageM (.durable ld)
          ⟨"", sender, c1, conv, now1, now1, none⟩ newId).1 newId c2 now2 =
        .ok (b2, true) ∧
      ∃ m ∈ getMessagesM b2, m._id = newId ∧ m.content = c2 ∧
        m.createdAt = now1 ∧ m.updatedAt = some now2 ∧ m.createdAt ≤ now2) ∧
    (∃ b2, updateMessageM (saveMessageM (.fallback lf)
          ⟨"", sender, c1, conv, now1, now1, none⟩ newId).1 newId c2 now2 =
        .ok (b2, true) ∧
      ∃ m ∈ getMessagesM b2, m._id = newId ∧ m.content = c2 ∧
        m.createdAt = now1 ∧ m.updatedAt = some now2 ∧ m.createdAt ≤ now2) := by
  constructor
  · intro hv
    refine ⟨.durable (ld ++ [⟨newId, sender, c2, conv, now1, now1, some now2⟩]),
      ?_, ?_⟩
    · have hupd := mongoUpdateOne_append_fresh ld
        ⟨newId, sender, c1, conv, now1, now1, none⟩ newId c2 now2 hfd rfl
      have hne : ¬ (({ (⟨newId, sender, c1, conv, now1, now1, none⟩ : Message) with
          content := c2, updatedAt := some now2 } : Message) =
            ⟨newId, sender, c1, conv, now1, now1, none⟩) := by
        simp
      rw [if_neg hne] at hupd
      simp only [saveMessageM, updateMessageM, hv, if_true]
      rw [show ({ (⟨"", sender, c1, conv, now1, now1, none⟩ : Message) with
            _id := newId } : Message) = ⟨newId, sender, c1, conv, now1, now1, none⟩
          from rfl]
      rw [hupd]
      simp
    · refine ⟨(⟨newId, sender, c2, conv, now1, now1, some now2⟩ : Message), ?_,
        rfl, rfl, rfl, rfl, h12⟩
      show (⟨newId, sender, c2, conv, now1, now1, some now2⟩ : Message) ∈
        List.insertionSort tsLE
          (ld ++ [(⟨newId, sender, c2, conv, now1, now1, some now2⟩ : Message)])
      exact (List.perm_insertionSort tsLE _).mem_iff.mpr (by simp)
  · refine ⟨.fallback (lf ++ [⟨newId, sender, c2, conv, now1, now1, some now2⟩]),
      ?_, ?_⟩
    · have hupd := fallbackUpdate_append_fresh lf
        ⟨newId, sender, c1, conv, now1, now1, none⟩ newId c2 now2 hff rfl
      simp only [saveMessageM, updateMessageM]
      rw [show ({ (⟨"", sender, c1, conv, now1, now1, none⟩ : Message) with
            _id := newId } : Message) = ⟨newId, sender, c1, conv, now1, now1, none⟩
          from rfl]
      rw [hupd]
    · refine ⟨(⟨newId, sender, c2, conv, now1, now1, some now2⟩ : Message), ?_,
        rfl, rfl, rfl, rfl, h12⟩
      show (⟨newId, sender, c2, conv, now1, now1, some now2⟩ : Message) ∈
        lf ++ [(⟨newId, sender, c2, conv, now1, now1, some now2⟩ : Message)]
      simp

/-- Witness for C6 at a concrete input: a uuid-style id as the fallback
actually assigns; the durable conjunct's valid-`ObjectId` premise is then
unsatisfied, while the fallback roundtrip is realized. -/
theorem C6_create_update_roundtrip_witness :
    (1 : Nat) ≤ 2 ∧
    (∀ m ∈ ([] : List Message), m._id ≠ "2af5c0de-1111-4abc-9def-aaaaaaaaaaaa") ∧
    ((isValidObjectIdString "2af5c0de-1111-4abc-9def-aaaaaaaaaaaa" = true →
      ∃ b2, updateMessageM (saveMessageM (.durable [])
          ⟨"", "u1", "one", "general", 1, 1, none⟩
          "2af5c0de-1111-4abc-9def-aaaaaaaaaaaa").1
          "2af5c0de-1111-4abc-9def-aaaaaaaaaaaa" "two" 2 = .ok (b2, true) ∧
       ∃ m ∈ getMessagesM b2, m._id = "2af5c0de-1111-4abc-9def-aaaaaaaaaaaa" ∧
         m.content = "two" ∧ m.createdAt = 1 ∧ m.updatedAt = some 2 ∧
         m.createdAt ≤ 2) ∧
     (∃ b2, updateMessageM (saveMessageM (.fallback [])
          ⟨"", "u1", "one", "general", 1, 1, none⟩
          "2af5c0de-1111-4abc-9def-aaaaaaaaaaaa").1
          "2af5c0de-1111-4abc-9def-aaaaaaaaaaaa" "two" 2 = .ok (b2, true) ∧
       ∃ m ∈ getMessagesM b2, m._id = "2af5c0de-1111-4abc-9def-aaaaaaaaaaaa" ∧
         m.content = "two" ∧ m.createdAt = 1 ∧ m.updatedAt = some 2 ∧
         m.createdAt ≤ 2)) :=
  ⟨by decide, by decide,
   C6_create_update_roundtrip [] [] "u1" "one" "two" "general" 1 2
     "2af5c0de-1111-4abc-9def-aaaaaaaaaaaa" (by decide) (by decide) (by decide)⟩

/-- C7: a `POST /api/messages` with non-empty `senderId` and `content` and no
`conversationId` answers 201 with the stored message — carrying the given
`senderId` and `content` and `conversationId` `"general"` — and broadcasts
exactly that stored message as a `newMessage` event to all connections. -/
theorem C7_post_created (b : Backend) (sender c : String) (now : Nat)
    (newId : String) (hs : sender ≠ "") (hc : c ≠ "") :
    (postMessages b ⟨some sender, some c, none⟩ now newId).status = 201 ∧
    ∃ saved : Message,
      (postMessages b ⟨some sender, some c, none⟩ now newId).body =
        .message saved ∧
      saved.senderId = sender ∧ saved.content = c ∧
      saved.conversationId = "general" ∧
      (postMessages b ⟨some sender, some c, none⟩ now newId).events =
        [("newMessage", .message saved)] := by
  have hcond : (isFalsy (some sender) || isFalsy (some c)) = false := by
    simp [isFalsy, hs, hc]
  cases b with
  | durable docs =>
      have hred : postMessages (.durable docs) ⟨some sender, some c, none⟩ now newId =
          ⟨201, .message ⟨newId, sender, c, "general", now, now, none⟩,
           [("newMessage", .message ⟨newId, sender, c, "general", now, now, none⟩)],
           .durable (docs ++ [⟨newId, sender, c, "general", now, now, none⟩])⟩ := by
        simp [postMessages, hcond, saveMessageM, mkMessage, jsOr]
      rw [hred]
      exact ⟨rfl, ⟨newId, sender, c, "general", now, now, none⟩, rfl, rfl, rfl,
        rfl, rfl⟩
  | fallback msgs =>
      have hred : postMessages (.fallback msgs) ⟨some sender, some c, none⟩ now newId =
          ⟨201, .message ⟨newId, sender, c, "general", now, now, none⟩,
           [("newMessage", .message ⟨newId, sender, c, "general", now, now, none⟩)],
           .fallback (msgs ++ [⟨newId, sender, c, "general", now, now, none⟩])⟩ := by
        simp [postMessages, hcond, saveMessageM, mkMessage, jsOr]
      rw [hred]
      exact ⟨rfl, ⟨newId, sender, c, "general", now, now, none⟩, rfl, rfl, rfl,
        rfl, rfl⟩

/-- Witness for C7 at the spec's example input `{senderId:"u1",content:"hi"}`. -/
theorem C7_post_created_witness :
    ("u1" : String) ≠ "" ∧ ("hi" : String) ≠ "" ∧
    ((postMessages (.fallback []) ⟨some "u1", some "hi", none⟩ 0 "i1").status = 201 ∧
     ∃ saved : Message,
       (postMessages (.fallback []) ⟨some "u1", some "hi", none⟩ 0 "i1").body =
         .message saved ∧
       saved.senderId = "u1" ∧ saved.content = "hi" ∧
       saved.conversationId = "general" ∧
       (postMessages (.fallback []) ⟨some "u1", some "hi", none⟩ 0 "i1").events =
         [("newMessage", .message saved)]) :=
  ⟨by decide, by decide,
   C7_post_created (.fallback []) "u1" "hi" 0 "i1" (by decide) (by decide)⟩

/-- C1 counterexample: on the durable backend a message with the given id
exists, yet `updateMessage` returns false, because the new content equals
the current content and `updatedAt` already equals the current instant, so
Mongo's `modifiedCount` is 0 despite the filter matching. -/
theorem C1_counterexample :
    (∃ m ∈ [(⟨"aaaaaaaaaaaaaaaaaaaaaaaa", "u", "c", "general", 0, 0, some 5⟩ : Message)],
       m._id = "aaaaaaaaaaaaaaaaaaaaaaaa") ∧
    updateMessageM
        (.durable [⟨"aaaaaaaaaaaaaaaaaaaaaaaa", "u", "c", "general", 0, 0, some 5⟩])
        "aaaaaaaaaaaaaaaaaaaaaaaa" "c" 5 =
      .ok (.durable [⟨"aaaaaaaaaaaaaaaaaaaaaaaa", "u", "c", "general", 0, 0, some 5⟩],
           false) := by
  constructor
  · exact ⟨_, List.mem_singleton_self _, rfl⟩
  · rfl

/-- C1 (amended): on the in-memory fallback, `update` returns true iff a
message with the id exists, regardless of content; on the durable backend
(valid `ObjectId` string), it returns true iff the first message with that
id exists and the `$set` actually changes it, i.e. the new content differs
from the current content or `updatedAt` differs from the current instant.
The fallback half holds for every id string (the fallback assigns uuid ids);
the durable half is stated for every call that returns at all, which is
exactly the valid-`ObjectId` ids, the invalid ones throwing instead. -/
theorem C1_update_found_iff (ld lf : List Message) (id c : String) (now : Nat) :
    (∀ b2 r, updateMessageM (.fallback lf) id c now = .ok (b2, r) →
       (r = true ↔ ∃ m ∈ lf, m._id = id)) ∧
    (∀ b2 r, updateMessageM (.durable ld) id c now = .ok (b2, r) →
       (r = true ↔ ∃ m, ld.find? (fun x => x._id == id) = some m ∧
          (m.content ≠ c ∨ m.updatedAt ≠ some now))) := by
  constructor
  · intro b2 r hr
    simp only [updateMessageM, Except.ok.injEq, Prod.mk.injEq] at hr
    obtain ⟨_, hrr⟩ := hr
    rw [← hrr]
    exact fallbackUpdate_found_iff lf id c now
  · intro b2 r hr
    by_cases hv : isValidObjectIdString id = true
    · simp only [updateMessageM, hv, if_true, Except.ok.injEq, Prod.mk.injEq] at hr
      obtain ⟨_, hrr⟩ := hr
      rw [← hrr]
      simp only [decide_eq_true_eq]
      exact mongoUpdateOne_count_pos_iff ld id c now
    · rw [Bool.not_eq_true] at hv
      simp [updateMessageM, hv] at hr

/-- Witness for C1 (amended) at a concrete input: the fallback store holds a
uuid-style id (never a 24-hex `ObjectId`), the durable store a 24-hex one. -/
theorem C1_update_found_iff_witness :
    (∀ b2 r, updateMessageM
          (.fallback [⟨"2af5c0de-1111-4abc-9def-aaaaaaaaaaaa", "u", "c", "general",
            0, 0, none⟩])
          "2af5c0de-1111-4abc-9def-aaaaaaaaaaaa" "x" 3 = .ok (b2, r) →
        (r = true ↔ ∃ m ∈ [(⟨"2af5c0de-1111-4abc-9def-aaaaaaaaaaaa", "u", "c",
            "general", 0, 0, none⟩ : Message)],
          m._id = "2af5c0de-1111-4abc-9def-aaaaaaaaaaaa")) ∧
    (∀ b2 r, updateMessageM
          (.durable [⟨"aaaaaaaaaaaaaaaaaaaaaaaa", "u", "c", "general", 0, 0, none⟩])
          "2af5c0de-1111-4abc-9def-aaaaaaaaaaaa" "x" 3 = .ok (b2, r) →
        (r = true ↔ ∃ m, List.find?
            (fun x => x._id == "2af5c0de-1111-4abc-9def-aaaaaaaaaaaa")
            [(⟨"aaaaaaaaaaaaaaaaaaaaaaaa", "u", "c", "general", 0, 0, none⟩ : Message)] =
              some m ∧ (m.content ≠ "x" ∨ m.updatedAt ≠ some 3))) :=
  C1_update_found_iff [⟨"aaaaaaaaaaaaaaaaaaaaaaaa", "u", "c", "general", 0, 0, none⟩]
    [⟨"2af5c0de-1111-4abc-9def-aaaaaaaaaaaa", "u", "c", "general", 0, 0, none⟩]
    "2af5c0de-1111-4abc-9def-aaaaaaaaaaaa" "x" 3

/-- C3 counterexample: a successful `PUT` broadcast carries the identifier
under the key `messageId`, not `id` as the claim states. -/
theorem C3_counterexample :
    (putMessage (.fallback [⟨"id0", "u", "old", "general", 0, 0, none⟩])
        "id0" (some "new") 7).status = 200 ∧
    (putMessage (.fallback [⟨"id0", "u", "old", "general", 0, 0, none⟩])
        "id0" (some "new") 7).events =
      [("messageUpdated",
        .fields [("messageId", .str "id0"), ("content", .str "new")])] ∧
    (putMessage (.fallback [⟨"id0", "u", "old", "general", 0, 0, none⟩])
        "id0" (some "new") 7).events ≠
      [("messageUpdated", .fields [("id", .str "id0"), ("content", .str "new")])] := by
  decide

/-- C3 (amended): every successful REST update of id to content C broadcasts
exactly one `messageUpdated` event with payload `{messageId: id, content: C}`
and every successful REST delete broadcasts exactly one `messageDeleted`
event with payload `{messageId: id}` — the identifier key is `messageId`. -/
theorem C3_broadcast_payloads (b : Backend) (id c : String) (now : Nat) :
    ((putMessage b id (some c) now).status = 200 →
      (putMessage b id (some c) now).events =
        [("messageUpdated",
          .fields [("messageId", .str id), ("content", .str c)])]) ∧
    ((deleteMessageRest b id).status = 200 →
      (deleteMessageRest b id).events =
        [("messageDeleted", .fields [("messageId", .str id)])]) := by
  constructor
  · rcases hP : putMessage b id (some c) now with ⟨st, bd, ev, b2⟩
    intro h200
    simp only [putMessage, Option.getD_some] at hP
    by_cases hf : isFalsy (some c) = true
    · rw [if_pos hf] at hP
      cases hP
      simp at h200
    · rw [if_neg hf] at hP
      rcases hU : updateMessageM b id c now with e | ⟨b3, found⟩
      · rw [hU] at hP
        cases hP
        simp at h200
      · rw [hU] at hP
        cases found
        · cases hP
          simp at h200
        · cases hP
          rfl
  · rcases hD : deleteMessageRest b id with ⟨st, bd, ev, b2⟩
    intro h200
    simp only [deleteMessageRest] at hD
    rcases hU : deleteMessageM b id with e | ⟨b3, found⟩
    · rw [hU] at hD
      cases hD
      simp at h200
    · rw [hU] at hD
      cases found
      · cases hD
        simp at h200
      · cases hD
        rfl

/-- Witness for C3 (amended): a concrete successful update and delete. -/
theorem C3_broadcast_payloads_witness :
    ((putMessage (.fallback [⟨"a", "u", "o", "general", 0, 0, none⟩])
          "a" (some "n") 4).status = 200 →
      (putMessage (.fallback [⟨"a", "u", "o", "general", 0, 0, none⟩])
          "a" (some "n") 4).events =
        [("messageUpdated",
          .fields [("messageId", .str "a"), ("content", .str "n")])]) ∧
    ((deleteMessageRest (.fallback [⟨"a", "u", "o", "general", 0, 0, none⟩])
          "a").status = 200 →
      (deleteMessageRest (.fallback [⟨"a", "u", "o", "general", 0, 0, none⟩])
          "a").events =
        [("messageDeleted", .fields [("messageId", .str "a")])]) :=
  C3_broadcast_payloads (.fallback [⟨"a", "u", "o", "general", 0, 0, none⟩]) "a" "n" 4

/-- C5 counterexample: with the durable backend active and the id `"nope"`
(certainly not present — it is not even a representable `ObjectId`), both
`PUT` with content and `DELETE` answer 500, not 404. -/
theorem C5_counterexample :
    (∀ m ∈ rawDocs (.durable []), m._id ≠ "nope") ∧
    (putMessage (.durable []) "nope" (some "x") 0).status = 500 ∧
    (putMessage (.durable []) "nope" (some "x") 0).status ≠ 404 ∧
    (deleteMessageRest (.durable []) "nope").status = 500 ∧
    (deleteMessageRest (.durable []) "nope").status ≠ 404 := by
  decide

/-- C5 (amended): for an id not present in the active backend — where, when
the durable backend is active, the id must additionally be a valid
`ObjectId` string (otherwise the constructor throws and the response is 500)
— `PUT` (with content supplied) and `DELETE` respond 404 and leave the
stored list exactly unchanged, with no broadcast emitted. -/
theorem C5_not_found_404 (ld lf : List Message) (id c : String) (now : Nat)
    (hc : c ≠ "")
    (hf : ∀ m ∈ lf, m._id ≠ id) (hd : ∀ m ∈ ld, m._id ≠ id) :
    putMessage (.fallback lf) id (some c) now =
      ⟨404, .fields [("error", .str "Message not found")], [], .fallback lf⟩ ∧
    deleteMessageRest (.fallback lf) id =
      ⟨404, .fields [("error", .str "Message not found")], [], .fallback lf⟩ ∧
    (isValidObjectIdString id = true →
      putMessage (.durable ld) id (some c) now =
        ⟨404, .fields [("error", .str "Message not found")], [], .durable ld⟩) ∧
    (isValidObjectIdString id = true →
      deleteMessageRest (.durable ld) id =
        ⟨404, .fields [("error", .str "Message not found")], [], .durable ld⟩) := by
  refine ⟨?_, ?_, ?_, ?_⟩
  · simp [putMessage, isFalsy, hc, updateMessageM,
      fallbackUpdate_not_found lf id c now hf]
  · simp [deleteMessageRest, deleteMessageM, fallbackDelete_not_found lf id hf]
  · intro hv
    simp [putMessage, isFalsy, hc, updateMessageM, hv,
      mongoUpdateOne_not_found ld id c now hd]
  · intro hv
    simp [deleteMessageRest, deleteMessageM, hv, mongoDeleteOne_not_found ld id hd]

/-- Witness for C5 (amended) at a concrete input. -/
theorem C5_not_found_404_witness :
    ("w" : String) ≠ "" ∧
    (∀ m ∈ [(⟨"x", "u", "o", "general", 0, 0, none⟩ : Message)],
       m._id ≠ "aaaaaaaaaaaaaaaaaaaaaaaa") ∧
    (putMessage (.fallback [⟨"x", "u", "o", "general", 0, 0, none⟩])
        "aaaaaaaaaaaaaaaaaaaaaaaa" (some "w") 1 =
      ⟨404, .fields [("error", .str "Message not found")], [],
       .fallback [⟨"x", "u", "o", "general", 0, 0, none⟩]⟩ ∧
     deleteMessageRest (.fallback [⟨"x", "u", "o", "general", 0, 0, none⟩])
        "aaaaaaaaaaaaaaaaaaaaaaaa" =
      ⟨404, .fields [("error", .str "Message not found")], [],
       .fallback [⟨"x", "u", "o", "general", 0, 0, none⟩]⟩ ∧
     (isValidObjectIdString "aaaaaaaaaaaaaaaaaaaaaaaa" = true →
       putMessage (.durable [⟨"x", "u", "o", "general", 0, 0, none⟩])
          "aaaaaaaaaaaaaaaaaaaaaaaa" (some "w") 1 =
        ⟨404, .fields [("error", .str "Message not found")], [],
         .durable [⟨"x", "u", "o", "general", 0, 0, none⟩]⟩) ∧
     (isValidObjectIdString "aaaaaaaaaaaaaaaaaaaaaaaa" = true →
       deleteMessageRest (.durable [⟨"x", "u", "o", "general", 0, 0, none⟩])
          "aaaaaaaaaaaaaaaaaaaaaaaa" =
        ⟨404, .fields [("error", .str "Message not found")], [],
         .durable [⟨"x", "u", "o", "general", 0, 0, none⟩]⟩)) :=
  ⟨by decide, by decide,
   C5_not_found_404 [⟨"x", "u", "o", "general", 0, 0, none⟩]
     [⟨"x", "u", "o", "general", 0, 0, none⟩] "aaaaaaaaaaaaaaaaaaaaaaaa" "w" 1
     (by decide) (by decide) (by decide)⟩

/-- C10: on the in-memory fallback, deleting an id present in the list
removes exactly the first message whose `_id` matches: the length drops by
one and the untouched prefix and suffix keep their elements and order. -/
theorem C10_fallback_delete_first_match (l : List Message) (id : String)
    (h : ∃ m ∈ l, m._id = id) :
    (fallbackDelete l id).2 = true ∧
    ∃ pre x post, l = pre ++ x :: post ∧ x._id = id ∧
      (∀ y ∈ pre, y._id ≠ id) ∧
      (fallbackDelete l id).1 = pre ++ post ∧
      (fallbackDelete l id).1.length + 1 = l.length := by
  induction l with
  | nil => simp at h
  | cons m ms ih =>
      by_cases hm : m._id = id
      · refine ⟨by simp [fallbackDelete, hm], [], m, ms, rfl, hm, by simp, ?_, ?_⟩
        · simp [fallbackDelete, hm]
        · simp [fallbackDelete, hm]
      · have h2 : ∃ x ∈ ms, x._id = id := by
          rcases h with ⟨x, hx, hxid⟩
          rcases List.mem_cons.mp hx with hx | hx
          · rw [hx] at hxid
            exact absurd hxid hm
          · exact ⟨x, hx, hxid⟩
        obtain ⟨ht, pre, x, post, hl, hxid, hpre, hres, hlen⟩ := ih h2
        have hstep : fallbackDelete (m :: ms) id =
            (m :: (fallbackDelete ms id).1, (fallbackDelete ms id).2) := by
          simp [fallbackDelete, hm]
        refine ⟨by rw [hstep]; exact ht, m :: pre, x, post, by rw [List.cons_append, ← hl],
          hxid, ?_, ?_, ?_⟩
        · intro y hy
          rcases List.mem_cons.mp hy with hy | hy
          · rw [hy]
            exact hm
          · exact hpre y hy
        · rw [hstep]
          simp [hres]
        · rw [hstep]
          simp only [List.length_cons]
          omega

/-- Witness for C10 at a concrete input: the list holds two messages with
the target id and one without; the first match goes, the rest stay. -/
theorem C10_fallback_delete_first_match_witness :
    (∃ m ∈ [(⟨"b", "u", "x", "general", 0, 0, none⟩ : Message),
            ⟨"a", "v", "y", "general", 1, 1, none⟩,
            ⟨"a", "w", "z", "general", 2, 2, none⟩], m._id = "a") ∧
    ((fallbackDelete [⟨"b", "u", "x", "general", 0, 0, none⟩,
                      ⟨"a", "v", "y", "general", 1, 1, none⟩,
                      ⟨"a", "w", "z", "general", 2, 2, none⟩] "a").2 = true ∧
     ∃ pre x post,
       [(⟨"b", "u", "x", "general", 0, 0, none⟩ : Message),
        ⟨"a", "v", "y", "general", 1, 1, none⟩,
        ⟨"a", "w", "z", "general", 2, 2, none⟩] = pre ++ x :: post ∧
       x._id = "a" ∧ (∀ y ∈ pre, y._id ≠ "a") ∧
       (fallbackDelete [⟨"b", "u", "x", "general", 0, 0, none⟩,
                        ⟨"a", "v", "y", "general", 1, 1, none⟩,
                        ⟨"a", "w", "z", "general", 2, 2, none⟩] "a").1 = pre ++ post ∧
       (fallbackDelete [⟨"b", "u", "x", "general", 0, 0, none⟩,
                        ⟨"a", "v", "y", "general", 1, 1, none⟩,
                        ⟨"a", "w", "z", "general", 2, 2, none⟩] "a").1.length + 1 =
         ([(⟨"b", "u", "x", "general", 0, 0, none⟩ : Message),
           ⟨"a", "v", "y", "general", 1, 1, none⟩,
           ⟨"a", "w", "z", "general", 2, 2, none⟩] : List Message).length) :=
  ⟨⟨⟨"a", "v", "y", "general", 1, 1, none⟩, by decide, rfl⟩,
   C10_fallback_delete_first_match _ "a"
     ⟨⟨"a", "v", "y", "general", 1, 1, none⟩, by decide, rfl⟩⟩
